import Mathlib

/-!
# Verification of the Firebird dialect adapter (sqlalchemy_firebird/base.py)

This file gives a shallow embedding of the SQL-dialect translation and
catalog-reflection engine of the repository and proves the specification
claims about it.

Modelling conventions:

* Python strings are modelled as lists of Unicode codepoints (`PyStr := List Nat`).
  The Python `str.lower` / `str.upper` methods are modelled by their ASCII
  behaviour (codepoints 65-90 respectively 97-122 are shifted, everything else
  is fixed).  Theorems that quantify over arbitrary strings therefore carry an
  ASCII hypothesis where case folding matters.
* Python `dict`s with string keys are modelled as association lists in
  insertion order; `dict.copy()` followed by item assignment is modelled by
  the pure update function `dictSet` (the original list is unchanged, which is
  exactly the "fresh copy" semantics of the Python code).
* Fallible code (Python `raise` / failed `assert`) is modelled with
  `Except PyStr` (the payload is the message).  A Python `TypeError` arising
  from comparing incompatible values inside a tuple comparison is modelled by
  `Option` (`none` = the comparison raises).
* The dialect subclasses SQLAlchemy 1.4 base classes.  Behaviour inherited
  from the host framework (`DefaultDialect.normalize_name` /
  `denormalize_name`, `IdentifierPreparer._requires_quotes`, the generic
  `visit_alias`, the placement of `get_select_precolumns` and `limit_clause`
  inside the rendered SELECT, and `GenericTypeCompiler.visit_VARCHAR`) is
  embedded from those base classes, since the methods of the repository call into
  them.
-/

set_option maxRecDepth 4096

/-- A Python string, as its list of Unicode codepoints. -/
abbrev PyStr := List Nat

/-- Codepoints of a Lean string literal (used to write `PyStr` constants). -/
def chars (s : String) : PyStr := s.data.map Char.toNat

/-- ASCII model of Python `str.lower` on a single codepoint. -/
def pyLowerChar (n : Nat) : Nat := if 65 ≤ n ∧ n ≤ 90 then n + 32 else n

/-- ASCII model of Python `str.upper` on a single codepoint. -/
def pyUpperChar (n : Nat) : Nat := if 97 ≤ n ∧ n ≤ 122 then n - 32 else n

/-- ASCII model of Python `str.lower`. -/
def pyLower (s : PyStr) : PyStr := s.map pyLowerChar

/-- ASCII model of Python `str.upper`. -/
def pyUpper (s : PyStr) : PyStr := s.map pyUpperChar

/-- The ASCII whitespace codepoints recognised by Python `str.strip` and
friends (space, tab, newline, vertical tab, form feed, carriage return). -/
def pyIsSpace (n : Nat) : Bool := n = 32 || n = 9 || n = 10 || n = 11 || n = 12 || n = 13

/-- Python `str.lstrip()` (no argument): drop leading whitespace. -/
def pyLstrip (s : PyStr) : PyStr := s.dropWhile pyIsSpace

/-- Python `str.rstrip()` (no argument): drop trailing whitespace. -/
def pyRstrip (s : PyStr) : PyStr := (s.reverse.dropWhile pyIsSpace).reverse

/-- Python `str.strip()` (no argument). -/
def pyStrip (s : PyStr) : PyStr := pyRstrip (pyLstrip s)

/-- `RESERVED_WORDS` from `base.py` (the Firebird 4.0 reserved keyword set),
installed on `FBIdentifierPreparer`. -/
def RESERVED_WORDS : List PyStr :=
  [chars ("add"), chars ("admin"), chars ("all"), chars ("alter"), chars ("and"), chars ("any"),
   chars ("as"), chars ("at"), chars ("avg"), chars ("begin"), chars ("between"), chars ("bigint"),
   chars ("binary"), chars ("bit_length"), chars ("blob"), chars ("boolean"), chars ("both"), chars ("by"),
   chars ("case"), chars ("cast"), chars ("char"), chars ("character"), chars ("character_length"), chars ("char_length"),
   chars ("check"), chars ("close"), chars ("collate"), chars ("column"), chars ("comment"), chars ("commit"),
   chars ("connect"), chars ("constraint"), chars ("corr"), chars ("count"), chars ("covar_pop"), chars ("covar_samp"),
   chars ("create"), chars ("cross"), chars ("current"), chars ("current_connection"), chars ("current_date"), chars ("current_role"),
   chars ("current_time"), chars ("current_timestamp"), chars ("current_transaction"), chars ("current_user"), chars ("cursor"), chars ("date"),
   chars ("day"), chars ("dec"), chars ("decfloat"), chars ("decimal"), chars ("declare"), chars ("default"),
   chars ("delete"), chars ("deleting"), chars ("deterministic"), chars ("disconnect"), chars ("distinct"), chars ("double"),
   chars ("drop"), chars ("else"), chars ("end"), chars ("escape"), chars ("execute"), chars ("exists"),
   chars ("external"), chars ("extract"), chars ("false"), chars ("fetch"), chars ("filter"), chars ("float"),
   chars ("for"), chars ("foreign"), chars ("from"), chars ("full"), chars ("function"), chars ("gdscode"),
   chars ("global"), chars ("grant"), chars ("group"), chars ("having"), chars ("hour"), chars ("in"),
   chars ("index"), chars ("inner"), chars ("insensitive"), chars ("insert"), chars ("inserting"), chars ("int"),
   chars ("int128"), chars ("integer"), chars ("into"), chars ("is"), chars ("join"), chars ("lateral"),
   chars ("leading"), chars ("left"), chars ("like"), chars ("local"), chars ("localtime"), chars ("localtimestamp"),
   chars ("long"), chars ("lower"), chars ("max"), chars ("merge"), chars ("min"), chars ("minute"),
   chars ("month"), chars ("national"), chars ("natural"), chars ("nchar"), chars ("no"), chars ("not"),
   chars ("null"), chars ("numeric"), chars ("octet_length"), chars ("of"), chars ("offset"), chars ("on"),
   chars ("only"), chars ("open"), chars ("or"), chars ("order"), chars ("outer"), chars ("over"),
   chars ("parameter"), chars ("plan"), chars ("position"), chars ("post_event"), chars ("precision"), chars ("primary"),
   chars ("procedure"), chars ("publication"), chars ("rdb$db_key"), chars ("rdb$error"), chars ("rdb$get_context"), chars ("rdb$get_transaction_cn"),
   chars ("rdb$record_version"), chars ("rdb$role_in_use"), chars ("rdb$set_context"), chars ("rdb$system_privilege"), chars ("real"), chars ("record_version"),
   chars ("recreate"), chars ("recursive"), chars ("references"), chars ("regr_avgx"), chars ("regr_avgy"), chars ("regr_count"),
   chars ("regr_intercept"), chars ("regr_r2"), chars ("regr_slope"), chars ("regr_sxx"), chars ("regr_sxy"), chars ("regr_syy"),
   chars ("release"), chars ("resetting"), chars ("return"), chars ("returning_values"), chars ("returns"), chars ("revoke"),
   chars ("right"), chars ("rollback"), chars ("row"), chars ("rows"), chars ("row_count"), chars ("savepoint"),
   chars ("scroll"), chars ("second"), chars ("select"), chars ("sensitive"), chars ("set"), chars ("similar"),
   chars ("smallint"), chars ("some"), chars ("sqlcode"), chars ("sqlstate"), chars ("start"), chars ("stddev_pop"),
   chars ("stddev_samp"), chars ("sum"), chars ("table"), chars ("then"), chars ("time"), chars ("timestamp"),
   chars ("timezone_hour"), chars ("timezone_minute"), chars ("to"), chars ("trailing"), chars ("trigger"), chars ("trim"),
   chars ("true"), chars ("unbounded"), chars ("union"), chars ("unique"), chars ("unknown"), chars ("update"),
   chars ("updating"), chars ("upper"), chars ("user"), chars ("using"), chars ("value"), chars ("values"),
   chars ("varbinary"), chars ("varchar"), chars ("variable"), chars ("varying"), chars ("var_pop"), chars ("var_samp"),
   chars ("view"), chars ("when"), chars ("where"), chars ("while"), chars ("window"), chars ("with"),
   chars ("without"), chars ("year")]

/-- `compiler.ILLEGAL_INITIAL_CHARACTERS ∪ {"_"}` as installed on
`FBIdentifierPreparer`: the digits, the dollar sign, and (Firebird-specific)
the underscore. -/
def fbIllegalInitialCharacters : List Nat :=
  [48, 49, 50, 51, 52, 53, 54, 55, 56, 57, 36, 95]

/-- One codepoint of the `legal_characters` class `[A-Z0-9_$]` with
`re.IGNORECASE`. -/
def isLegalIdentChar (n : Nat) : Bool :=
  (65 ≤ n && n ≤ 90) || (97 ≤ n && n ≤ 122) || (48 ≤ n && n ≤ 57) || n = 95 || n = 36

/-- `legal_characters.match(value)` where
`legal_characters = re.compile(r"^[A-Z0-9_$]+$", re.I)`: the whole string (or
the whole string minus one trailing newline, which `$` also accepts) is a
nonempty run of legal identifier characters. -/
def pyLegalMatch (s : PyStr) : Bool :=
  let core := if s.getLast? = some 10 then s.dropLast else s
  !(core.isEmpty) && core.all isLegalIdentChar

/-- `IdentifierPreparer._requires_quotes` (SQLAlchemy base class) with the
Firebird reserved words and illegal initial characters installed.  On the
empty string Python raises `IndexError` (from `value[0]`), modelled as
`none`. -/
def pyRequiresQuotes (value : PyStr) : Option Bool :=
  match value with
  | [] => none
  | c :: _ =>
      some (decide (pyLower value ∈ RESERVED_WORDS)
        || decide (c ∈ fbIllegalInitialCharacters)
        || !(pyLegalMatch value)
        || decide (pyLower value ≠ value))

/-- `DefaultDialect.normalize_name` (SQLAlchemy 1.4) as inherited by
`FBDialect` (`requires_name_normalize = True`).  The `quoted_name(...,
quote=True)` wrapper in the all-lower-case branch only attaches a quote flag
to the same character content, so the returned character content is the name
itself.  `_requires_quotes` is only consulted when the name contains a cased
character, hence never on the empty string; `Option.getD true` in that spot is
therefore never exercised. -/
def normalize_name (name : PyStr) : PyStr :=
  let name_lower := pyLower name
  let name_upper := pyUpper name
  if name_upper = name_lower then name
  else if name_upper = name ∧ (pyRequiresQuotes name_lower).getD true = false then name_lower
  else name

/-- `DefaultDialect.denormalize_name` (SQLAlchemy 1.4) as inherited by
`FBDialect`. -/
def denormalize_name (name : PyStr) : PyStr :=
  let name_lower := pyLower name
  let name_upper := pyUpper name
  if name_upper = name_lower then name
  else if name_lower = name ∧ (pyRequiresQuotes name_lower).getD true = false then name_upper
  else name

/-- The abstract column-type classes that appear as values of the
`ischema_names` tables (SQLAlchemy type classes imported at the top of
`base.py`, plus `sqltypes.DATE` used by the legacy override). -/
inductive TypeClass where
  | SMALLINT | INTEGER | FLOAT | DATE | TIME | TEXT | BIGINT | TIMESTAMP
  | VARCHAR | CHAR | BLOB
deriving DecidableEq, Repr

/-- Lookup in a Python string-keyed `dict` modelled as an association list. -/
def dictGet {V : Type} (d : List (PyStr × V)) (k : PyStr) : Option V :=
  match d with
  | [] => none
  | (k2, v) :: rest => if k2 = k then some v else dictGet rest k

/-- Item assignment `d[k] = v` on a Python `dict`, as a pure update (existing
key is overwritten in place, new key is appended). -/
def dictSet {V : Type} (d : List (PyStr × V)) (k : PyStr) (v : V) : List (PyStr × V) :=
  if d.any (fun p => p.1 = k) then
    d.map (fun p => if p.1 = k then (k, v) else p)
  else d ++ [(k, v)]

/-- The module-level `ischema_names` table of `base.py`: catalog type name to
abstract type class. -/
def ischema_names : List (PyStr × TypeClass) :=
  [(chars ("SHORT"), .SMALLINT),
   (chars ("LONG"), .INTEGER),
   (chars ("QUAD"), .FLOAT),
   (chars ("FLOAT"), .FLOAT),
   (chars ("DATE"), .DATE),
   (chars ("TIME"), .TIME),
   (chars ("TEXT"), .TEXT),
   (chars ("INT64"), .BIGINT),
   (chars ("DOUBLE"), .FLOAT),
   (chars ("TIMESTAMP"), .TIMESTAMP),
   (chars ("VARYING"), .VARCHAR),
   (chars ("CSTRING"), .CHAR),
   (chars ("BLOB"), .BLOB)]

/-- The table `FBDialect.initialize` installs on a legacy-generation
connection: `ischema_names.copy()` followed by
`self.ischema_names["TIMESTAMP"] = sqltypes.DATE`. -/
def legacy_ischema_names : List (PyStr × TypeClass) :=
  dictSet ischema_names (chars ("TIMESTAMP")) .DATE

/-- Values of the `colspecs` dict (its only key is `sqltypes.DateTime`):
`_FBDateTime` in the module-level table, `sqltypes.DATE` in the legacy
override. -/
inductive ColspecVal where
  | fbDateTime | date
deriving DecidableEq, Repr

/-- An element of the heterogeneous `server_version_info` tuple. -/
inductive PyVal where
  | int (n : Nat)
  | str (s : PyStr)
deriving DecidableEq, Repr

/-- Python comparison of two tuple elements: ordering is only defined between
two ints or two strings; comparing an int with a string raises `TypeError`
(`none`). -/
def pyValCmp : PyVal → PyVal → Option Ordering
  | .int a, .int b => some (compare a b)
  | .str a, .str b => some (compare a b)
  | _, _ => none

/-- Python lexicographic tuple comparison.  A shorter tuple that is a prefix
of a longer one compares less; the first unequal pair decides (and raises if
the two elements are not order-comparable). -/
def pyTupleCmp : List PyVal → List PyVal → Option Ordering
  | [], [] => some .eq
  | [], _ :: _ => some .lt
  | _ :: _, [] => some .gt
  | x :: xs, y :: ys =>
      if x = y then pyTupleCmp xs ys
      else match pyValCmp x y with
        | none => none
        | some o => some o

/-- Python `a >= b` on tuples. -/
def pyTupleGE (a b : List PyVal) : Option Bool :=
  (pyTupleCmp a b).map (fun o => decide (o ≠ .lt))

/-- The `server_version_info` reported for the connection: a tuple of version
numbers followed by the product name string (the shape produced by the
driver-side version parser, e.g. `(2, 5, 0, 6457, "firebird")`). -/
structure ServerVersionInfo where
  nums : List Nat
  product : PyStr
deriving DecidableEq, Repr

/-- The tuple value of a `ServerVersionInfo`. -/
def sviTuple (svi : ServerVersionInfo) : List PyVal :=
  svi.nums.map .int ++ [.str svi.product]

/-- The `_version_two` computation of `FBDialect.initialize` (lines 544-550):
`("firebird" in svi and svi >= (2,)) or ("interbase" in svi and svi >= (6,))`
with Python short-circuit evaluation; `none` models a `TypeError` escaping
from a tuple comparison. -/
def fbVersionTwo (svi : ServerVersionInfo) : Option Bool :=
  let t := sviTuple svi
  let left : Option Bool :=
    if PyVal.str (chars ("firebird")) ∈ t then pyTupleGE t [.int 2] else some false
  match left with
  | none => none
  | some true => some true
  | some false =>
      if PyVal.str (chars ("interbase")) ∈ t then pyTupleGE t [.int 6] else some false

/-- The connection-scoped mutable state of an `FBDialect` instance that the
claims depend on. -/
structure FBDialectState where
  versionTwo : Bool
  ischemaNames : List (PyStr × TypeClass)
  colspecDateTime : ColspecVal
  implicitReturning : Bool
  maxIdentifierLength : Nat
deriving DecidableEq, Repr

/-- A freshly constructed, not yet initialized `FBDialect`: the class
defaults (`_version_two = True` of line 540, the module-level mapping tables,
SQLAlchemy 1.4 `DefaultDialect` defaults `max_identifier_length = 9999` and
implicit RETURNING enabled). -/
def fbDefaultDialect : FBDialectState :=
  { versionTwo := true
    ischemaNames := ischema_names
    colspecDateTime := .fbDateTime
    implicitReturning := true
    maxIdentifierLength := 9999 }

/-- `FBDialect.initialize` (lines 542-565).  Inputs: the dialect state before
the call, the reported `server_version_info`, and the driver-reported
`connection.connection.engine_version` (a float, modelled as a rational).
`none` models a `TypeError` escaping from the version-tuple comparison. -/
def fbInitialize (st : FBDialectState) (svi : ServerVersionInfo)
    (engineVersion : ℚ) : Option FBDialectState :=
  match fbVersionTwo svi with
  | none => none
  | some v2 =>
      some { versionTwo := v2
             ischemaNames := if v2 then st.ischemaNames else legacy_ischema_names
             colspecDateTime := if v2 then st.colspecDateTime else .date
             implicitReturning := v2 && st.implicitReturning
             maxIdentifierLength := if engineVersion < 4 then 31 else 252 }

/-- `FBDialect.has_table` (lines 567-585).  The relation catalog is modelled
as the list of `rdb$relation_name` values; the result records the returned
boolean together with whether the catalog query was issued (the early return
on an over-long name happens before any query and before `denormalize_name`
is called). -/
def has_table (st : FBDialectState) (catalog : List PyStr) (tableName : PyStr) :
    Bool × Bool :=
  if tableName.length > st.maxIdentifierLength then (false, false)
  else (decide (denormalize_name tableName ∈ catalog), true)

deriving instance DecidableEq for Except

/-- Truthiness of a nullable Python value that is `None` or a number (used
for `bool(row.null_flag)`: `None` and `0` are falsy). -/
def pyTruthyOptInt : Option Int → Bool
  | none => false
  | some n => decide (n ≠ 0)

/-- The Python comparison `row.fprec != 0` on a nullable integer: note that
`None != 0` is `True` in Python, so a NULL precision also passes the test. -/
def pyNeZero : Option Int → Bool
  | none => true
  | some n => decide (n ≠ 0)

/-- The result of the per-row type computation of `FBDialect.get_columns`
(lines 764-785): an abstract column-type instance. -/
inductive ColType where
  /-- `sqltypes.NULLTYPE`, the opaque fallback for an unrecognized name. -/
  | nulltype
  /-- `NUMERIC(precision=row.fprec, scale=row.fscale * -1)`. -/
  | numeric (precision : Option Int) (scale : Int)
  /-- `coltype(row.flen)` for the `VARYING` / `CSTRING` branch. -/
  | withLen (tc : TypeClass) (len : Option Int)
  /-- `TEXT(row.flen)` for the `TEXT` branch. -/
  | textLen (len : Option Int)
  /-- `TEXT()` for a `BLOB` of subtype 1. -/
  | textPlain
  /-- `BLOB()` for a `BLOB` of any other subtype. -/
  | blobPlain
  /-- `coltype()` for every remaining recognized name. -/
  | plain (tc : TypeClass)
deriving DecidableEq, Repr

/-- The type classes that are subclasses of `sqlalchemy.types.Integer`
(among the values of the mapping tables): `SMALLINT`, `INTEGER`, `BIGINT`. -/
def isIntegerClass : TypeClass → Bool
  | .SMALLINT | .INTEGER | .BIGINT => true
  | _ => false

/-- The type-computation chain of `FBDialect.get_columns` (lines 764-785),
parameterized by the connection-active `ischema_names` table.  The catalog
fields `stype`, `flen`, `fprec`, `fscale` are nullable integers.  The `.error`
case models the `TypeError` Python raises for `row.fscale * -1` when
`rdb$field_scale` comes back NULL.  The unrecognized-name branch also emits a
non-fatal `util.warn` diagnostic (not captured here) before falling back to
`NULLTYPE`. -/
def mkColType (isch : List (PyStr × TypeClass)) (ftype : PyStr)
    (stype flen fprec fscale : Option Int) : Except PyStr ColType :=
  let colspec := pyRstrip ftype
  match dictGet isch colspec with
  | none => .ok .nulltype
  | some coltype =>
      if isIntegerClass coltype && pyNeZero fprec then
        match fscale with
        | none => .error (chars ("TypeError: unsupported operand type(s) for *"))
        | some sc => .ok (.numeric fprec (sc * -1))
      else if colspec = chars ("VARYING") ∨ colspec = chars ("CSTRING") then
        .ok (.withLen coltype flen)
      else if colspec = chars ("TEXT") then
        .ok (.textLen flen)
      else if colspec = chars ("BLOB") then
        .ok (if stype = some 1 then .textPlain else .blobPlain)
      else
        .ok (.plain coltype)

/-- The default-value parsing of `FBDialect.get_columns` (lines 787-801),
for the `COALESCE(r.rdb$default_source, f.rdb$default_source)` value of one
row.  `.error` models the failed `assert` (an `AssertionError` carrying the
"Unrecognized default value" message); `.ok none` means no default. -/
def parseDefault (fdefault : Option PyStr) : Except PyStr (Option PyStr) :=
  match fdefault with
  | none => .ok none
  | some fd =>
      let defexpr := pyLstrip fd
      if pyUpper (pyRstrip (defexpr.take 8)) = chars ("DEFAULT") then
        let defvalue := pyStrip (defexpr.drop 8)
        .ok (if defvalue = chars ("NULL") then none else some defvalue)
      else
        .error (chars ("Unrecognized default value: ") ++ defexpr)

/-- One row of the `get_columns` catalog query (lines 730-751), as the Python
driver delivers it. -/
structure CatalogRow where
  fname : PyStr
  nullFlag : Option Int
  ftype : PyStr
  stype : Option Int
  flen : Option Int
  fprec : Option Int
  fscale : Option Int
  fdefault : Option PyStr
  computedSource : Option PyStr
deriving DecidableEq, Repr

/-- The column descriptor `col_d` built by `FBDialect.get_columns` for one
row (lines 760-815).  `quote` is `true` exactly when the code executes
`col_d["quote"] = True`; `autoincrement` is always the literal `"auto"` and
is omitted. -/
structure ColDescriptor where
  name : PyStr
  coltype : ColType
  nullable : Bool
  default : Option PyStr
  quote : Bool
  computed : Option PyStr
deriving DecidableEq, Repr

/-- The per-row body of the `get_columns` loop (lines 760-815), parameterized
by the connection-active `ischema_names` table.  The trailing
single-column-primary-key sequence linkage (lines 817-821) issues a separate
catalog query and is not part of the per-row descriptor modelled here. -/
def mkColumnRecord (isch : List (PyStr × TypeClass)) (row : CatalogRow) :
    Except PyStr ColDescriptor :=
  match mkColType isch row.ftype row.stype row.flen row.fprec row.fscale with
  | .error e => .error e
  | .ok coltype =>
      match parseDefault row.fdefault with
      | .error e => .error e
      | .ok defvalue =>
          .ok { name := normalize_name row.fname
                coltype := coltype
                nullable := !(pyTruthyOptInt row.nullFlag)
                default := defvalue
                quote := decide (pyLower row.fname = row.fname)
                computed := row.computedSource }

/-- `FBTypeCompiler._extend_string` (lines 249-254): append
`CHARACTER SET <charset>` when the type carries an explicit charset. -/
def extend_string (charset : Option PyStr) (basic : PyStr) : PyStr :=
  match charset with
  | none => basic
  | some cs => basic ++ chars (" CHARACTER SET ") ++ cs

/-- Decimal digits of a natural number (for `"%(length)s" % n`). -/
def natChars (n : Nat) : PyStr := chars (toString n)

/-- `FBTypeCompiler.visit_VARCHAR` (lines 260-266).  Python `if not
type_.length` is true for both `None` and `0`, so both raise the
`CompileError`; otherwise the generic `GenericTypeCompiler.visit_VARCHAR`
rendering `VARCHAR(<length>)` is extended with the optional character set. -/
def visit_VARCHAR (length : Option Nat) (charset : Option PyStr) :
    Except PyStr PyStr :=
  match length with
  | some (n + 1) =>
      .ok (extend_string charset (chars ("VARCHAR(") ++ natChars (n + 1) ++ chars (")")))
  | _ => .error (chars ("VARCHAR requires a length on dialect firebird"))

/-- `FBDDLCompiler.visit_computed_column` (lines 454-463), taking the
persistence flag of the `Computed` construct and the rendered text of its SQL
expression. -/
def visit_computed_column (persisted : Option Bool) (sqltext : PyStr) :
    Except PyStr PyStr :=
  match persisted with
  | some _ =>
      .error (chars ("Firebird computed columns do not support a persistence method setting; set the persisted flag to None for Firebird support."))
  | none => .ok (chars ("GENERATED ALWAYS AS (") ++ sqltext ++ chars (")"))

/-- `FBDDLCompiler.visit_create_sequence` (lines 421-441), taking the
generation flag of the owning dialect, the `start` and `increment` attributes
of the sequence, and its formatted name. -/
def visit_create_sequence (versionTwo : Bool) (start increment : Option Int)
    (seqName : PyStr) : Except PyStr PyStr :=
  match start with
  | some _ => .error (chars ("Firebird SEQUENCE does not support START WITH"))
  | none =>
      match increment with
      | some _ => .error (chars ("Firebird SEQUENCE does not support INCREMENT BY"))
      | none =>
          .ok ((if versionTwo then chars ("CREATE SEQUENCE ")
                else chars ("CREATE GENERATOR ")) ++ seqName)

/-- `FBDDLCompiler.visit_drop_sequence` (lines 443-452). -/
def visit_drop_sequence (versionTwo : Bool) (seqName : PyStr) : PyStr :=
  (if versionTwo then chars ("DROP SEQUENCE ") else chars ("DROP GENERATOR ")) ++ seqName

/-- The tri-state `Column.autoincrement` attribute (`True`, `False` or the
string `"auto"`). -/
inductive PyAutoInc where
  | isTrue | isFalse | auto
deriving DecidableEq, Repr

/-- The attributes of an abstract column that
`FBDDLCompiler.get_column_specification` reads.  Text produced by external
collaborators (the formatted column name, `str(column.type)`, the type
compiled by the dialect type compiler, the rendered computed expression, the
result of `get_column_default_string`) is taken as input. -/
structure FBColumn where
  formattedName : PyStr
  /-- `str(column.type)`, used in the computed-column branch. -/
  typeStr : PyStr
  /-- `self.dialect.type_compiler.process(column.type, ...)`. -/
  typeCompiled : PyStr
  /-- `column.computed`: its `persisted` flag and rendered `sqltext`. -/
  computed : Option (Option Bool × PyStr)
  /-- `column is column.table._autoincrement_column`. -/
  isTableAutoincCol : Bool
  autoincrement : PyAutoInc
  /-- `column.dialect_options["firebird"]["identity_start"]` (default 0). -/
  identityStart : Int
  /-- `self.get_column_default_string(column)`. -/
  defaultString : Option PyStr
  /-- `isinstance(column.default, sa_schema.Sequence)`. -/
  defaultIsSequence : Bool
  nullable : Option Bool
  primaryKey : Bool
deriving DecidableEq, Repr

/-- Decimal rendering of an integer (for `"START WITH %s" % start`). -/
def intChars (n : Int) : PyStr := chars (toString n)

/-- `FBDDLCompiler.get_column_specification` (lines 383-419).  The only
raising sub-call reachable through the modelled inputs is
`self.process(column.computed)`, i.e. `visit_computed_column`. -/
def get_column_specification (c : FBColumn) : Except PyStr PyStr :=
  let step1 : Except PyStr PyStr :=
    match c.computed with
    | some (persisted, sqltext) =>
        (visit_computed_column persisted sqltext).map
          (fun comp => c.formattedName ++ chars (" ") ++ c.typeStr ++ chars (" ") ++ comp)
    | none => .ok (c.formattedName ++ chars (" ") ++ c.typeCompiled)
  step1.map (fun cs =>
    let cs :=
      if c.isTableAutoincCol || c.autoincrement = .isTrue then
        cs ++ chars (" GENERATED BY DEFAULT AS IDENTITY (START WITH ")
          ++ intChars c.identityStart ++ chars (")")
      else
        match c.defaultString with
        | some d => cs ++ chars (" DEFAULT ") ++ d
        | none => cs
    match c.nullable with
    | none => cs
    | some nb =>
        if !nb || c.primaryKey || c.defaultIsSequence || c.autoincrement = .isTrue then
          cs ++ chars (" NOT NULL")
        else cs)

/-- The pieces of a SELECT statement that the pagination rendering reads:
the distinct flag handled by the generic `get_select_precolumns`, the
processed texts of `select._limit_clause` and `select._offset_clause`
(`None` when absent), the rendered column list and the rendered remainder of
the statement (FROM clause onward). -/
structure SelectStmt where
  distinct : Bool
  limitText : Option PyStr
  offsetText : Option PyStr
  columnsText : PyStr
  restText : PyStr
deriving DecidableEq, Repr

/-- The generic `SQLCompiler.get_select_precolumns`: renders the DISTINCT
keyword (and nothing else relevant to this dialect). -/
def superGetSelectPrecolumns (s : SelectStmt) : PyStr :=
  if s.distinct then chars ("DISTINCT ") else []

/-- `FBCompiler.get_select_precolumns` (lines 346-365): append
`FIRST (<limit>) ` and `SKIP (<offset>) ` to the generic prefix. -/
def get_select_precolumns (s : SelectStmt) : PyStr :=
  let result := superGetSelectPrecolumns s
  let result :=
    match s.limitText with
    | some l => result ++ chars ("FIRST (") ++ l ++ chars (") ")
    | none => result
  match s.offsetText with
  | some o => result ++ chars ("SKIP (") ++ o ++ chars (") ")
  | none => result

/-- `FBCompiler.limit_clause` (lines 367-369): the generic trailing clause is
suppressed for every statement. -/
def limit_clause (_ : SelectStmt) : PyStr := []

/-- The host framework composition of a SELECT statement: the `SELECT `
keyword, then `get_select_precolumns`, then the column list, then the rest of
the statement, with the `limit_clause` of the dialect appended at the trailing
position where the generic LIMIT/OFFSET clause would go. -/
def renderSelect (s : SelectStmt) : PyStr :=
  chars ("SELECT ") ++ get_select_precolumns s ++ s.columnsText ++ s.restText
    ++ limit_clause s

/-- The generic `SQLCompiler.visit_alias` for a FROM-clause alias: the
rendered element followed by ` AS ` and the formatted alias name; outside a
FROM clause only the element is rendered. -/
def superVisitAlias (elementText aliasName : PyStr) (asfrom : Bool) : PyStr :=
  if asfrom then elementText ++ chars (" AS ") ++ aliasName else elementText

/-- `FBCompiler.visit_alias` (lines 294-314): the generic rendering on a
version-two dialect, the `AS`-less legacy rendering otherwise. -/
def visit_alias (versionTwo : Bool) (elementText aliasName : PyStr)
    (asfrom : Bool) : PyStr :=
  if versionTwo then superVisitAlias elementText aliasName asfrom
  else if asfrom then elementText ++ chars (" ") ++ aliasName
  else elementText

/-- C10: a freshly constructed dialect (no `initialize` run) has the modern
generation flag set (`_version_two = True`, line 540), so generation-dependent
rendering follows the modern profile: FROM-clause aliases use the generic
rendering with `AS`, and sequence creation and drop render as
`CREATE SEQUENCE` / `DROP SEQUENCE` rather than the GENERATOR forms. -/
theorem claim_C10_uninitialized_dialect_is_modern :
    fbDefaultDialect.versionTwo = true ∧
    (∀ e a, visit_alias fbDefaultDialect.versionTwo e a true =
      e ++ chars (" AS ") ++ a) ∧
    (∀ n, visit_create_sequence fbDefaultDialect.versionTwo none none n =
      .ok (chars ("CREATE SEQUENCE ") ++ n)) ∧
    (∀ n, visit_drop_sequence fbDefaultDialect.versionTwo n =
      chars ("DROP SEQUENCE ") ++ n) := by
  refine ⟨rfl, fun e a => ?_, fun n => rfl, fun n => rfl⟩
  simp [visit_alias, superVisitAlias, fbDefaultDialect]

/-- Counterexample to C5: a DISTINCT select with limit 10 and offset 5 is a
SELECT with a limit and an offset, but the program renders
`SELECT DISTINCT FIRST (10) SKIP (5) ...` — the generic precolumns prefix
(DISTINCT) stands between the SELECT keyword and FIRST, so FIRST is not
placed immediately after the SELECT keyword. -/
theorem claim_C5_counterexample :
    renderSelect { distinct := true, limitText := some (natChars 10),
                   offsetText := some (natChars 5),
                   columnsText := chars ("a, b"), restText := chars (" FROM t") } =
      chars ("SELECT DISTINCT FIRST (10) SKIP (5) a, b FROM t") ∧
    (renderSelect { distinct := true, limitText := some (natChars 10),
                    offsetText := some (natChars 5),
                    columnsText := chars ("a, b"),
                    restText := chars (" FROM t") }).take
        (chars ("SELECT FIRST (")).length ≠ chars ("SELECT FIRST (") := by
  constructor
  · decide
  · decide

/-- C5 as amended: on a SELECT with a limit and/or an offset, the rendered
statement carries `FIRST (<limit>)` and then `SKIP (<offset>)`, each
parenthesized and in that order, between the SELECT keyword and the column
list — immediately after the SELECT keyword when the generic precolumns
prefix is empty, and immediately after that prefix (`DISTINCT `) otherwise —
and the generic trailing LIMIT/OFFSET clause is suppressed because
`limit_clause` returns the empty string for every statement. -/
theorem claim_C5_amended_first_skip_pagination (d : Bool) (l o cols rest : PyStr)
    (s : SelectStmt) :
    renderSelect { distinct := d, limitText := some l, offsetText := some o,
                   columnsText := cols, restText := rest } =
      chars ("SELECT ") ++ (if d then chars ("DISTINCT ") else [])
        ++ chars ("FIRST (") ++ l ++ chars (") SKIP (") ++ o ++ chars (") ")
        ++ cols ++ rest ∧
    renderSelect { distinct := d, limitText := some l, offsetText := none,
                   columnsText := cols, restText := rest } =
      chars ("SELECT ") ++ (if d then chars ("DISTINCT ") else [])
        ++ chars ("FIRST (") ++ l ++ chars (") ") ++ cols ++ rest ∧
    renderSelect { distinct := d, limitText := none, offsetText := some o,
                   columnsText := cols, restText := rest } =
      chars ("SELECT ") ++ (if d then chars ("DISTINCT ") else [])
        ++ chars ("SKIP (") ++ o ++ chars (") ") ++ cols ++ rest ∧
    limit_clause s = [] := by
  have h3 : chars (") SKIP (") = chars (") ") ++ chars ("SKIP (") := rfl
  cases d <;>
    refine ⟨?_, ?_, ?_, rfl⟩ <;>
      simp [renderSelect, get_select_precolumns, superGetSelectPrecolumns,
        limit_clause, h3, List.append_assoc]

/-- C4: the three unsupported constructs are rejected with an error at
compile time, before any SQL text is produced: a sequence with a non-null
start or non-null increment, a computed column with a non-null persistence
flag, and a VARCHAR with no length. -/
theorem claim_C4_unsupported_constructs_rejected (v2 : Bool)
    (start increment : Option Int) (seqName : PyStr)
    (persisted : Option Bool) (sqltext : PyStr) (charset : Option PyStr) :
    (start ≠ none ∨ increment ≠ none →
      ∃ msg, visit_create_sequence v2 start increment seqName = .error msg) ∧
    (persisted ≠ none →
      ∃ msg, visit_computed_column persisted sqltext = .error msg) ∧
    (∃ msg, visit_VARCHAR none charset = .error msg) := by
  refine ⟨fun h => ?_, fun h => ?_, ⟨_, rfl⟩⟩
  · rcases start with _ | s
    · rcases increment with _ | i
      · rcases h with h | h <;> simp at h
      · exact ⟨_, rfl⟩
    · exact ⟨_, rfl⟩
  · rcases persisted with _ | p
    · simp at h
    · exact ⟨_, rfl⟩

/-- Witness for C4 at concrete inputs: each of the three constructs produces
a compile-time error. -/
theorem claim_C4_witness :
    (∃ msg, visit_create_sequence true (some 5) none (chars ("s1")) = .error msg) ∧
    (∃ msg, visit_create_sequence true none (some 10) (chars ("s1")) = .error msg) ∧
    (∃ msg, visit_computed_column (some true) (chars ("a + b")) = .error msg) ∧
    (∃ msg, visit_VARCHAR none none = .error msg) :=
  ⟨(claim_C4_unsupported_constructs_rejected true (some 5) none (chars ("s1"))
      none (chars ("a + b")) none).1 (Or.inl (by decide)),
   (claim_C4_unsupported_constructs_rejected true none (some 10) (chars ("s1"))
      none (chars ("a + b")) none).1 (Or.inr (by decide)),
   (claim_C4_unsupported_constructs_rejected true none none (chars ("s1"))
      (some true) (chars ("a + b")) none).2.1 (by decide),
   (claim_C4_unsupported_constructs_rejected true none none (chars ("s1"))
      (some true) (chars ("a + b")) none).2.2⟩

/-- C6: in the `get_columns` type computation, a catalog base type that maps
to an integer-family class together with a non-zero reported precision yields
an exact `NUMERIC` with that precision and the sign-negated catalog scale. -/
theorem claim_C6_integer_precision_numeric (isch : List (PyStr × TypeClass))
    (ftype : PyStr) (stype flen : Option Int) (p sc : Int) (tc : TypeClass)
    (hlook : dictGet isch (pyRstrip ftype) = some tc)
    (hint : isIntegerClass tc = true) (hp : p ≠ 0) :
    mkColType isch ftype stype flen (some p) (some sc) =
      .ok (.numeric (some p) (-sc)) := by
  have hcond : (isIntegerClass tc && pyNeZero (some p)) = true := by
    simp [hint, pyNeZero, hp]
  simp only [mkColType, hlook, hcond, if_true]
  have : sc * -1 = -sc := by ring
  rw [this]

/-- Witness for C6: catalog base type `SHORT` with precision 5 and scale -2
maps to `NUMERIC(precision=5, scale=2)`. -/
theorem claim_C6_witness :
    mkColType ischema_names (chars ("SHORT")) none none (some 5) (some (-2)) =
      .ok (.numeric (some 5) 2) := by
  have h := claim_C6_integer_precision_numeric ischema_names (chars ("SHORT"))
    none none 5 (-2) .SMALLINT (by decide) (by decide) (by decide)
  simpa using h

/-- C9: whenever `get_column_specification` renders a column whose `nullable`
attribute is set and that is a primary-key column, or has a `Sequence`
default, or has `autoincrement=True`, the rendered specification ends in
` NOT NULL` — even when the column was declared `nullable=True`. -/
theorem claim_C9_forced_not_null (c : FBColumn) (s : PyStr)
    (hn : c.nullable ≠ none)
    (hcond : c.primaryKey = true ∨ c.defaultIsSequence = true ∨
      c.autoincrement = .isTrue)
    (hok : get_column_specification c = .ok s) :
    ∃ t, s = t ++ chars (" NOT NULL") := by
  obtain ⟨nb, hnb⟩ : ∃ b, c.nullable = some b := by
    cases h : c.nullable
    · exact absurd h hn
    · exact ⟨_, rfl⟩
  have hc : (!nb || c.primaryKey || c.defaultIsSequence
      || decide (c.autoincrement = .isTrue)) = true := by
    rcases hcond with h | h | h <;> simp [h]
  rcases hcomp : c.computed with _ | ⟨persisted, sqltext⟩
  · simp only [get_column_specification, hcomp, hnb, hc, Except.map,
      if_true, Except.ok.injEq] at hok
    exact ⟨_, hok.symm⟩
  · rcases persisted with _ | pv
    · simp only [get_column_specification, hcomp, visit_computed_column, hnb, hc,
        Except.map, if_true, Except.ok.injEq] at hok
      exact ⟨_, hok.symm⟩
    · simp only [get_column_specification, hcomp, visit_computed_column,
        Except.map] at hok
      exact absurd hok (by simp)

/-- Witness for C9: an explicitly `nullable=True` primary-key column still
renders with a trailing ` NOT NULL`. -/
theorem claim_C9_witness :
    ∃ t, (chars ("id INTEGER NOT NULL") : PyStr) = t ++ chars (" NOT NULL") := by
  have h := claim_C9_forced_not_null
    { formattedName := chars ("id"), typeStr := chars ("INTEGER"),
      typeCompiled := chars ("INTEGER"), computed := none,
      isTableAutoincCol := false, autoincrement := .auto, identityStart := 0,
      defaultString := none, defaultIsSequence := false,
      nullable := some true, primaryKey := true }
    (chars ("id INTEGER NOT NULL")) (by decide) (Or.inl (by decide)) (by decide)
  exact h

/-- Modelled from the spec wording, for comparison with the code: a catalog
name is "all-uppercase" when upper-casing leaves it unchanged. -/
def specIsAllUppercase (s : PyStr) : Bool := decide (pyUpper s = s)

/-- Counterexample to C2: the catalog column name `Abc` is not all-uppercase
(it contains lowercase characters), yet the descriptor built by
`get_columns` does not carry the quote flag, because the code tests
`orig_colname.lower() == orig_colname` (all-lowercase), not
"not all-uppercase". -/
theorem claim_C2_counterexample :
    (mkColumnRecord ischema_names
        { fname := chars ("Abc"), nullFlag := none, ftype := chars ("LONG"),
          stype := none, flen := none, fprec := some 0, fscale := some 0,
          fdefault := none, computedSource := none }).map ColDescriptor.quote
      = .ok false ∧
    specIsAllUppercase (chars ("Abc")) = false := by
  constructor
  · rfl
  · decide

/-- C2 as amended: the descriptor built by `get_columns` for a row carries
the quote flag if and only if the catalog-reported column name is unchanged
by lower-casing, i.e. contains no uppercase character (rather than "is not
all-uppercase"). -/
theorem claim_C2_amended_quote_iff_lowercase (isch : List (PyStr × TypeClass))
    (row : CatalogRow) (d : ColDescriptor)
    (hok : mkColumnRecord isch row = .ok d) :
    d.quote = true ↔ pyLower row.fname = row.fname := by
  rcases h1 : mkColType isch row.ftype row.stype row.flen row.fprec row.fscale
    with e | ct
  · simp [mkColumnRecord, h1] at hok
  · rcases h2 : parseDefault row.fdefault with e | dv
    · simp [mkColumnRecord, h1, h2] at hok
    · simp only [mkColumnRecord, h1, h2, Except.ok.injEq] at hok
      rw [← hok]
      simp

/-- Witness for C2 as amended: a lowercase catalog name `abc` gets the quote
flag, an uppercase one `ABC` does not. -/
theorem claim_C2_witness :
    (true = true ↔ pyLower (chars ("abc")) = chars ("abc")) ∧
    (false = true ↔ pyLower (chars ("ABC")) = chars ("ABC")) := by
  constructor
  · exact claim_C2_amended_quote_iff_lowercase ischema_names
      { fname := chars ("abc"), nullFlag := none, ftype := chars ("LONG"),
        stype := none, flen := none, fprec := some 0, fscale := some 0,
        fdefault := none, computedSource := none }
      { name := normalize_name (chars ("abc")), coltype := .plain .INTEGER,
        nullable := true, default := none, quote := true, computed := none }
      (by decide)
  · exact claim_C2_amended_quote_iff_lowercase ischema_names
      { fname := chars ("ABC"), nullFlag := none, ftype := chars ("LONG"),
        stype := none, flen := none, fprec := some 0, fscale := some 0,
        fdefault := none, computedSource := none }
      { name := normalize_name (chars ("ABC")), coltype := .plain .INTEGER,
        nullable := true, default := none, quote := false, computed := none }
      (by decide)

/-- C7: `has_table` returns `False` immediately, issuing no catalog query,
whenever the name is longer than the connection maximum identifier length —
which `initialize` fixes at 31 when the driver-reported engine version is
below 4.0 and at 252 otherwise — and for names within the limit it returns
`True` iff a relation-catalog row matches the denormalized name. -/
theorem claim_C7_has_table (st : FBDialectState) (svi : ServerVersionInfo)
    (ev : ℚ) (st2 : FBDialectState) (cat : List PyStr) (name : PyStr)
    (hinit : fbInitialize st svi ev = some st2) :
    ((ev < 4 → st2.maxIdentifierLength = 31) ∧
     (¬ ev < 4 → st2.maxIdentifierLength = 252)) ∧
    (name.length > st2.maxIdentifierLength →
      has_table st2 cat name = (false, false)) ∧
    (¬ name.length > st2.maxIdentifierLength →
      has_table st2 cat name = (decide (denormalize_name name ∈ cat), true)) := by
  rcases h : fbVersionTwo svi with _ | v2
  · rw [fbInitialize, h] at hinit; exact absurd hinit (by simp)
  · rw [fbInitialize, h, Option.some.injEq] at hinit
    refine ⟨⟨fun hev => ?_, fun hev => ?_⟩, fun hlen => ?_, fun hlen => ?_⟩
    · rw [← hinit]; simp [hev]
    · rw [← hinit]; simp [hev]
    · simp [has_table, hlen]
    · simp [has_table, hlen]

/-- Witness for C7: after initializing against engine version 3.0 the limit
is 31; a 33-character name is rejected without a query while a short name is
looked up via its denormalized form. -/
theorem claim_C7_witness :
    ((3 : ℚ) < 4 →
      (FBDialectState.mk true ischema_names .fbDateTime true 31).maxIdentifierLength = 31) ∧
    has_table (FBDialectState.mk true ischema_names .fbDateTime true 31)
      [chars ("USERS")] (chars ("abcdefghijklmnopqrstuvwxyz0123456")) = (false, false) ∧
    has_table (FBDialectState.mk true ischema_names .fbDateTime true 31)
      [chars ("USERS")] (chars ("users")) =
      (decide (denormalize_name (chars ("users")) ∈ [chars ("USERS")]), true) := by
  have h := claim_C7_has_table fbDefaultDialect ⟨[3, 0], chars ("firebird")⟩ 3
    (FBDialectState.mk true ischema_names .fbDateTime true 31)
    [chars ("USERS")] (chars ("abcdefghijklmnopqrstuvwxyz0123456")) (by decide)
  have h2 := claim_C7_has_table fbDefaultDialect ⟨[3, 0], chars ("firebird")⟩ 3
    (FBDialectState.mk true ischema_names .fbDateTime true 31)
    [chars ("USERS")] (chars ("users")) (by decide)
  exact ⟨fun _ => h.1.1 (by norm_num), h.2.1 (by decide), h2.2.2 (by decide)⟩

lemma str_mem_sviTuple (q : PyStr) (nums : List Nat) (product : PyStr) :
    (PyVal.str q ∈ sviTuple ⟨nums, product⟩) ↔ q = product := by
  simp [sviTuple]

lemma pyTupleGE_version (maj k : Nat) (rest : List Nat) (product : PyStr) :
    pyTupleGE (sviTuple ⟨maj :: rest, product⟩) [PyVal.int k] =
      some (decide (k ≤ maj)) := by
  obtain ⟨h, t2, ht⟩ : ∃ h t2, rest.map PyVal.int ++ [PyVal.str product] = h :: t2 := by
    cases rest <;> exact ⟨_, _, rfl⟩
  have hsvi : sviTuple ⟨maj :: rest, product⟩ = PyVal.int maj :: h :: t2 := by
    simp [sviTuple, ht]
  rw [hsvi, pyTupleGE]
  by_cases hmk : maj = k
  · subst hmk
    simp [pyTupleCmp]
  · have hne : (PyVal.int maj = PyVal.int k) = False := by simp [hmk]
    simp only [pyTupleCmp, hne, if_false, pyValCmp, Option.map_some]
    refine congrArg some (decide_eq_decide.mpr ?_)
    rw [Ne, Nat.compare_eq_lt]
    omega

lemma fbVersionTwo_legacy (maj : Nat) (rest : List Nat) (product : PyStr)
    (h : ¬ ((product = chars ("firebird") ∧ 2 ≤ maj) ∨
            (product = chars ("interbase") ∧ 6 ≤ maj))) :
    fbVersionTwo ⟨maj :: rest, product⟩ = some false := by
  push_neg at h
  obtain ⟨hfb, hib⟩ := h
  rw [fbVersionTwo]
  by_cases h1 : product = chars ("firebird")
  · have hmaj : ¬ 2 ≤ maj := by have := hfb h1; omega
    have hmem : PyVal.str (chars ("firebird")) ∈ sviTuple ⟨maj :: rest, product⟩ := by
      rw [str_mem_sviTuple, h1]
    have hmem2 : ¬ PyVal.str (chars ("interbase")) ∈ sviTuple ⟨maj :: rest, product⟩ := by
      rw [str_mem_sviTuple, h1]
      decide
    simp only [hmem, if_true, hmem2, if_false, pyTupleGE_version]
    simp [hmaj]
  · have hmem : ¬ PyVal.str (chars ("firebird")) ∈ sviTuple ⟨maj :: rest, product⟩ := by
      rw [str_mem_sviTuple]
      exact fun he => h1 he.symm
    by_cases h2 : product = chars ("interbase")
    · have hmaj : ¬ 6 ≤ maj := by have := hib h2; omega
      have hmem2 : PyVal.str (chars ("interbase")) ∈ sviTuple ⟨maj :: rest, product⟩ := by
        rw [str_mem_sviTuple, h2]
      simp only [hmem, if_false, hmem2, if_true, pyTupleGE_version]
      simp [hmaj]
    · have hmem2 : ¬ PyVal.str (chars ("interbase")) ∈ sviTuple ⟨maj :: rest, product⟩ := by
        rw [str_mem_sviTuple]
        exact fun he => h2 he.symm
      simp [hmem, hmem2]

lemma dictGet_map_update_ne {V : Type} (d : List (PyStr × V)) (k k2 : PyStr) (v : V)
    (h : ¬ k = k2) :
    dictGet (d.map (fun p => if p.1 = k then (k, v) else p)) k2 = dictGet d k2 := by
  induction d with
  | nil => rfl
  | cons p rest ih =>
      simp only [List.map_cons]
      by_cases hp : p.1 = k
      · rw [if_pos hp]
        simp only [dictGet]
        rw [if_neg h, if_neg (fun hpk2 => h (hp.symm.trans hpk2)), ih]
      · rw [if_neg hp]
        simp only [dictGet]
        by_cases hk2 : p.1 = k2
        · rw [if_pos hk2, if_pos hk2]
        · rw [if_neg hk2, if_neg hk2, ih]

lemma dictGet_append_single_ne {V : Type} (d : List (PyStr × V)) (k k2 : PyStr) (v : V)
    (h : ¬ k = k2) :
    dictGet (d ++ [(k, v)]) k2 = dictGet d k2 := by
  induction d with
  | nil => simp [dictGet, h]
  | cons p rest ih =>
      simp only [List.cons_append, dictGet]
      by_cases hk2 : p.1 = k2
      · rw [if_pos hk2, if_pos hk2]
      · rw [if_neg hk2, if_neg hk2]
        exact ih

lemma dictGet_dictSet_ne {V : Type} (d : List (PyStr × V)) (k k2 : PyStr) (v : V)
    (h : ¬ k = k2) : dictGet (dictSet d k v) k2 = dictGet d k2 := by
  unfold dictSet
  split_ifs with hany
  · exact dictGet_map_update_ne d k k2 v h
  · exact dictGet_append_single_ne d k k2 v h

lemma legacy_ischema_get_ne (k : PyStr) (hk : k ≠ chars ("TIMESTAMP")) :
    dictGet legacy_ischema_names k = dictGet ischema_names k :=
  dictGet_dictSet_ne ischema_names (chars ("TIMESTAMP")) k .DATE
    (fun he => hk he.symm)

/-- Counterexample to C1: on a legacy connection (interbase 5.0), the legacy
mapping resolves the date/time catalog type `TIME` to the time-only type, not
to the date-only type — so not every date/time catalog type collapses to the
single date-only type. -/
theorem claim_C1_counterexample :
    (fbInitialize fbDefaultDialect ⟨[5, 0], chars ("interbase")⟩ 3).map
        (fun st => dictGet st.ischemaNames (chars ("TIME"))) =
      some (some TypeClass.TIME) ∧
    TypeClass.TIME ≠ TypeClass.DATE := by
  constructor
  · decide
  · decide

/-- C1 as amended: on every connection whose reported server version is
neither (firebird, major >= 2) nor (interbase, major >= 6), `initialize`
replaces the whole mapping table with a fresh copy (the module-level table is
left untouched, still mapping `TIMESTAMP` to the date+time type) in which
`TIMESTAMP` — the date+time catalog type — resolves to the date-only type;
every other entry, including `TIME` (which keeps resolving to the time-only
type), is unchanged from the modern table.  The `colspecs` override likewise
maps the abstract date-time type to the date-only type. -/
theorem claim_C1_amended_legacy_table_swap (st : FBDialectState) (maj : Nat)
    (rest : List Nat) (product : PyStr) (ev : ℚ) (st2 : FBDialectState)
    (hlegacy : ¬ ((product = chars ("firebird") ∧ 2 ≤ maj) ∨
                  (product = chars ("interbase") ∧ 6 ≤ maj)))
    (hinit : fbInitialize st ⟨maj :: rest, product⟩ ev = some st2) :
    st2.ischemaNames = legacy_ischema_names ∧
    dictGet st2.ischemaNames (chars ("TIMESTAMP")) = some .DATE ∧
    (∀ k, k ≠ chars ("TIMESTAMP") →
      dictGet st2.ischemaNames k = dictGet ischema_names k) ∧
    dictGet ischema_names (chars ("TIMESTAMP")) = some .TIMESTAMP ∧
    dictGet st2.ischemaNames (chars ("TIME")) = some .TIME ∧
    st2.colspecDateTime = .date := by
  rw [fbInitialize, fbVersionTwo_legacy maj rest product hlegacy,
    Option.some.injEq] at hinit
  have hisch : st2.ischemaNames = legacy_ischema_names := by
    rw [← hinit]
    simp
  refine ⟨hisch, ?_, ?_, by decide, ?_, ?_⟩
  · rw [hisch]; decide
  · intro k hk
    rw [hisch]
    exact legacy_ischema_get_ne k hk
  · rw [hisch]; decide
  · rw [← hinit]
    simp

/-- Witness for C1 as amended, at the concrete legacy connection
(interbase 5.0): the resulting table is the legacy table, TIMESTAMP resolves
to DATE while the module-level table still has TIMESTAMP, and TIME is
unchanged. -/
theorem claim_C1_witness :
    (FBDialectState.mk false legacy_ischema_names .date false 31).ischemaNames =
      legacy_ischema_names ∧
    dictGet (FBDialectState.mk false legacy_ischema_names .date false 31).ischemaNames
      (chars ("TIMESTAMP")) = some .DATE ∧
    dictGet ischema_names (chars ("TIMESTAMP")) = some .TIMESTAMP ∧
    dictGet (FBDialectState.mk false legacy_ischema_names .date false 31).ischemaNames
      (chars ("TIME")) = some .TIME := by
  have h := claim_C1_amended_legacy_table_swap fbDefaultDialect 5 [0]
    (chars ("interbase")) 3 (FBDialectState.mk false legacy_ischema_names .date false 31)
    (by decide) (by decide)
  exact ⟨h.1, h.2.1, h.2.2.2.1, h.2.2.2.2.1⟩

lemma pyRstrip_decomp (s : PyStr) :
    ∃ w, s = pyRstrip s ++ w ∧ ∀ n ∈ w, pyIsSpace n = true := by
  refine ⟨(s.reverse.takeWhile pyIsSpace).reverse, ?_, ?_⟩
  · conv_lhs => rw [← List.reverse_reverse s,
      ← List.takeWhile_append_dropWhile pyIsSpace s.reverse]
    rw [List.reverse_append]
    rfl
  · intro n hn
    rw [List.mem_reverse] at hn
    exact List.mem_takeWhile_imp hn

lemma pyUpper_length (s : PyStr) : (pyUpper s).length = s.length := by
  simp [pyUpper]

lemma rstrip_take8_default {s : PyStr}
    (h : pyUpper (pyRstrip (s.take 8)) = chars ("DEFAULT")) :
    pyUpper (s.take 7) = chars ("DEFAULT") := by
  have hlen : (pyRstrip (s.take 8)).length = 7 := by
    rw [← pyUpper_length, h]
    rfl
  obtain ⟨w, hw, -⟩ := pyRstrip_decomp (s.take 8)
  have h2 : (s.take 8).take 7 = s.take 7 := by
    rw [List.take_take]
    norm_num
  have h1 : (s.take 8).take 7 = pyRstrip (s.take 8) := by
    conv_lhs => rw [hw]
    exact List.take_left' hlen
  rw [← h2, h1, h]

lemma strip_drop8_eq_drop7 {s : PyStr}
    (h : pyUpper (pyRstrip (s.take 8)) = chars ("DEFAULT")) :
    pyStrip (s.drop 8) = pyStrip (s.drop 7) := by
  have hlen : (pyRstrip (s.take 8)).length = 7 := by
    rw [← pyUpper_length, h]
    rfl
  by_cases hs : s.length ≤ 7
  · rw [List.drop_eq_nil_of_le hs, List.drop_eq_nil_of_le (by omega)]
  · obtain ⟨w, hw, hsp⟩ := pyRstrip_decomp (s.take 8)
    have hlen8 : (s.take 8).length = 8 := by
      rw [List.length_take]
      omega
    have hwlen : w.length = 1 := by
      have := congrArg List.length hw
      rw [List.length_append, hlen] at this
      omega
    obtain ⟨c, hc⟩ := List.length_eq_one.mp hwlen
    subst hc
    have hcsp : pyIsSpace c = true := hsp c (List.mem_singleton_self c)
    have hsplit : s = pyRstrip (s.take 8) ++ (c :: s.drop 8) := by
      conv_lhs => rw [← List.take_append_drop 8 s, hw]
      rw [List.append_assoc]
      rfl
    have hdrop7 : s.drop 7 = c :: s.drop 8 := by
      conv_lhs => rw [hsplit]
      exact List.drop_left' hlen
    rw [hdrop7]
    unfold pyStrip pyLstrip
    rw [List.dropWhile_cons_of_pos hcsp]

/-- C3: for a non-null default-value source, if (after discarding leading
whitespace) the text does not begin case-insensitively with the keyword
`DEFAULT`, the row fails the hard assertion (an error, not a warning or a
skipped row); when parsing succeeds, the reported default is the text after
that 7-character prefix with surrounding whitespace stripped, and a remaining
text of exactly `NULL` is reported as no default. -/
theorem claim_C3_default_parsing (fd : PyStr) :
    (pyUpper ((pyLstrip fd).take 7) ≠ chars ("DEFAULT") →
      ∃ msg, parseDefault (some fd) = .error msg) ∧
    (∀ v, parseDefault (some fd) = .ok v →
      v = (if pyStrip ((pyLstrip fd).drop 7) = chars ("NULL") then none
           else some (pyStrip ((pyLstrip fd).drop 7)))) := by
  constructor
  · intro hne
    by_cases hcond : pyUpper (pyRstrip ((pyLstrip fd).take 8)) = chars ("DEFAULT")
    · exact absurd (rstrip_take8_default hcond) hne
    · refine ⟨chars ("Unrecognized default value: ") ++ pyLstrip fd, ?_⟩
      simp only [parseDefault, hcond, if_false]
  · intro v hv
    by_cases hcond : pyUpper (pyRstrip ((pyLstrip fd).take 8)) = chars ("DEFAULT")
    · have hstrip := strip_drop8_eq_drop7 hcond
      simp only [parseDefault, hcond, if_true, Except.ok.injEq] at hv
      rw [← hv, hstrip]
    · simp only [parseDefault, hcond, if_false] at hv
      exact absurd hv (by simp)

/-- Witness for C3: a source not starting with the DEFAULT keyword is a hard
assertion failure; a lower-case `default` source with extra whitespace parses
to the stripped remainder text. -/
theorem claim_C3_witness :
    (∃ msg, parseDefault (some (chars ("CHECK (x > 0)"))) = .error msg) ∧
    some (chars ("0")) =
      (if pyStrip ((pyLstrip (chars ("  default  0  "))).drop 7) = chars ("NULL")
       then none
       else some (pyStrip ((pyLstrip (chars ("  default  0  "))).drop 7))) := by
  refine ⟨(claim_C3_default_parsing (chars ("CHECK (x > 0)"))).1 (by decide), ?_⟩
  exact (claim_C3_default_parsing (chars ("  default  0  "))).2
    (some (chars ("0"))) (by decide)

/-- One codepoint of the identifier alphabet of the C8 claim: uppercase ASCII
letter, digit, or underscore. -/
def isUpperIdentChar (n : Nat) : Bool :=
  decide ((65 ≤ n ∧ n ≤ 90) ∨ (48 ≤ n ∧ n ≤ 57) ∨ n = 95)

lemma upperChar_fixed {n : Nat} (h : isUpperIdentChar n = true) :
    pyUpperChar n = n := by
  simp only [isUpperIdentChar, decide_eq_true_eq] at h
  unfold pyUpperChar
  split_ifs <;> omega

lemma upperChar_lowerChar {n : Nat} (h : isUpperIdentChar n = true) :
    pyUpperChar (pyLowerChar n) = n := by
  simp only [isUpperIdentChar, decide_eq_true_eq] at h
  unfold pyLowerChar pyUpperChar
  split_ifs <;> omega

lemma lowerChar_idem (n : Nat) :
    pyLowerChar (pyLowerChar n) = pyLowerChar n := by
  unfold pyLowerChar
  split_ifs <;> omega

lemma lowerChar_legal {n : Nat} (h : isUpperIdentChar n = true) :
    isLegalIdentChar (pyLowerChar n) = true := by
  simp only [isUpperIdentChar, decide_eq_true_eq] at h
  unfold pyLowerChar
  split_ifs <;>
    (simp only [isLegalIdentChar, Bool.or_eq_true, Bool.and_eq_true,
      decide_eq_true_eq]; omega)

lemma legal_ne_ten {n : Nat} (h : isLegalIdentChar n = true) : n ≠ 10 := by
  simp only [isLegalIdentChar, Bool.or_eq_true, Bool.and_eq_true,
    decide_eq_true_eq] at h
  omega

lemma lowerChar_letter_not_illegal {n : Nat} (h1 : 65 ≤ n) (h2 : n ≤ 90) :
    pyLowerChar n ∉ fbIllegalInitialCharacters := by
  unfold pyLowerChar
  rw [if_pos ⟨h1, h2⟩]
  simp [fbIllegalInitialCharacters]
  omega

lemma pyUpper_all_fixed {x : PyStr} (h : ∀ n ∈ x, isUpperIdentChar n = true) :
    pyUpper x = x := by
  induction x with
  | nil => rfl
  | cons a t ih =>
      show pyUpperChar a :: t.map pyUpperChar = a :: t
      rw [upperChar_fixed (h a (List.mem_cons_self a t))]
      exact congrArg (a :: ·) (ih (fun n hn => h n (List.mem_cons_of_mem a hn)))

lemma pyUpper_pyLower_eq {x : PyStr} (h : ∀ n ∈ x, isUpperIdentChar n = true) :
    pyUpper (pyLower x) = x := by
  induction x with
  | nil => rfl
  | cons a t ih =>
      show pyUpperChar (pyLowerChar a) :: (t.map pyLowerChar).map pyUpperChar = a :: t
      rw [upperChar_lowerChar (h a (List.mem_cons_self a t))]
      exact congrArg (a :: ·) (ih (fun n hn => h n (List.mem_cons_of_mem a hn)))

lemma pyLower_idem (x : PyStr) :
    pyLower (pyLower x) = pyLower x := by
  induction x with
  | nil => rfl
  | cons a t ih =>
      show pyLowerChar (pyLowerChar a) :: (t.map pyLowerChar).map pyLowerChar
        = pyLowerChar a :: t.map pyLowerChar
      rw [lowerChar_idem a]
      exact congrArg (pyLowerChar a :: ·) ih

lemma pyLower_all_legal {x : PyStr} (h : ∀ n ∈ x, isUpperIdentChar n = true) :
    ∀ m ∈ pyLower x, isLegalIdentChar m = true := by
  intro m hm
  obtain ⟨n, hn, rfl⟩ := List.mem_map.mp hm
  exact lowerChar_legal (h n hn)

lemma pyStr_getLast_mem {l : PyStr} {a : Nat} (h : l.getLast? = some a) :
    a ∈ l := by
  induction l with
  | nil => simp at h
  | cons b t ih =>
      cases t with
      | nil =>
          simp only [List.getLast?_singleton, Option.some.injEq] at h
          simp [h]
      | cons c t2 =>
          rw [List.getLast?_cons_cons] at h
          exact List.mem_cons_of_mem _ (ih h)

lemma pyLegalMatch_of_all {s : PyStr} (hne : s ≠ [])
    (h : ∀ n ∈ s, isLegalIdentChar n = true) : pyLegalMatch s = true := by
  unfold pyLegalMatch
  have hlast : ¬ s.getLast? = some 10 := by
    intro hl
    exact legal_ne_ten (h 10 (pyStr_getLast_mem hl)) rfl
  rw [if_neg hlast]
  cases s with
  | nil => exact absurd rfl hne
  | cons a t =>
      simp only [List.isEmpty_cons, Bool.not_false, Bool.true_and,
        List.all_eq_true]
      exact h

/-- Counterexample to C8: `_A` consists only of uppercase letters, digits and
underscore and does not match a reserved word, yet
`requires_quoting(normalize("_A"))` is True, because the underscore is an
illegal initial character for this dialect. -/
theorem claim_C8_counterexample :
    pyRequiresQuotes (normalize_name (chars ("_A"))) = some true ∧
    pyLower (chars ("_A")) ∉ RESERVED_WORDS ∧
    (∀ n ∈ chars ("_A"), isUpperIdentChar n = true) := by
  refine ⟨by decide, by decide, by decide⟩

/-- C8 as amended: for every identifier of uppercase ASCII letters, digits
and underscore, `denormalize(normalize(x)) = x`; and
`requires_quoting(normalize(x))` is False unless `x` case-insensitively
matches a reserved word or begins with a digit or an underscore (the illegal
initial characters within this alphabet, which force quoting). -/
theorem claim_C8_amended_roundtrip (x : PyStr)
    (hx : ∀ n ∈ x, isUpperIdentChar n = true) :
    denormalize_name (normalize_name x) = x ∧
    (∀ c cs, x = c :: cs → pyLower x ∉ RESERVED_WORDS →
      ¬ (48 ≤ c ∧ c ≤ 57) → c ≠ 95 →
      pyRequiresQuotes (normalize_name x) = some false) := by
  have hup : pyUpper x = x := pyUpper_all_fixed hx
  have hidem : pyLower (pyLower x) = pyLower x := pyLower_idem x
  have hupl : pyUpper (pyLower x) = x := pyUpper_pyLower_eq hx
  constructor
  · by_cases hL : pyLower x = x
    · have h1 : normalize_name x = x := by
        simp [normalize_name, hup, hL]
      rw [h1]
      simp [denormalize_name, hup, hL]
    · have hL' : (x = pyLower x) = False := eq_false (fun he => hL he.symm)
      by_cases hQ : (pyRequiresQuotes (pyLower x)).getD true = false
      · have hnorm : normalize_name x = pyLower x := by
          simp [normalize_name, hup, hL', hQ]
        rw [hnorm]
        simp [denormalize_name, hidem, hupl, hL', hQ]
      · have hnorm : normalize_name x = x := by
          simp [normalize_name, hup, hL', hQ]
        rw [hnorm]
        have hL2 : (pyLower x = x) = False := eq_false hL
        simp [denormalize_name, hup, hL', hL2]
  · intro c cs hxc hres hdig hund
    subst hxc
    have hc : isUpperIdentChar c = true := hx c (List.mem_cons_self c cs)
    have hletter : 65 ≤ c ∧ c ≤ 90 := by
      simp only [isUpperIdentChar, decide_eq_true_eq] at hc
      rcases hc with h | h | h
      · exact h
      · exact absurd h hdig
      · exact absurd h hund
    have hshape : pyLower (c :: cs) = pyLowerChar c :: pyLower cs := rfl
    have hLne : pyLower (c :: cs) ≠ c :: cs := by
      intro he
      rw [hshape] at he
      have hhead : pyLowerChar c = c := (List.cons.injEq _ _ _ _).mp he |>.1
      unfold pyLowerChar at hhead
      rw [if_pos hletter] at hhead
      omega
    have hRQ : pyRequiresQuotes (pyLower (c :: cs)) = some false := by
      have b1 : decide (pyLower (pyLower (c :: cs)) ∈ RESERVED_WORDS) = false :=
        decide_eq_false (by rw [hidem]; exact hres)
      have b2 : decide (pyLowerChar c ∈ fbIllegalInitialCharacters) = false :=
        decide_eq_false (lowerChar_letter_not_illegal hletter.1 hletter.2)
      have hlegalT : pyLegalMatch (pyLower (c :: cs)) = true :=
        pyLegalMatch_of_all (by rw [hshape]; exact List.cons_ne_nil _ _)
          (pyLower_all_legal hx)
      have b4 : decide (pyLower (pyLower (c :: cs)) ≠ pyLower (c :: cs)) = false :=
        decide_eq_false (by rw [hidem]; simp)
      rw [hshape, pyRequiresQuotes]
      rw [← hshape, b1, b2, hlegalT, b4]
      rfl
    have hL' : (c :: cs = pyLower (c :: cs)) = False :=
      eq_false (fun he => hLne he.symm)
    have hnorm : normalize_name (c :: cs) = pyLower (c :: cs) := by
      simp [normalize_name, hup, hL', hRQ]
    rw [hnorm, hRQ]

/-- Witness for C8 as amended: the identifier `EMPLOYEE_ID` round-trips
through normalize/denormalize and its normalized form needs no quoting. -/
theorem claim_C8_witness :
    denormalize_name (normalize_name (chars ("EMPLOYEE_ID"))) =
      chars ("EMPLOYEE_ID") ∧
    pyRequiresQuotes (normalize_name (chars ("EMPLOYEE_ID"))) = some false := by
  have h := claim_C8_amended_roundtrip (chars ("EMPLOYEE_ID")) (by decide)
  exact ⟨h.1, h.2 69 (chars ("MPLOYEE_ID")) (by decide) (by decide)
    (by decide) (by decide)⟩
